import Mathlib

/-!
Verification development for the credit-fulfillment and receipt subsystem of a
Cloudflare-Workers/Next.js SaaS template.

The TypeScript sources are shallowly embedded as executable Lean definitions:

* `webhookPOST`       — `src/app/api/webhooks/stripe/route.ts` (`POST`)
* `confirmPayment`    — the `confirmPayment` server action (credits actions file)
* `getReceiptInfo`    — the `getReceiptInfo` server action (same file)
* `handleError`, `isValidPaymentIntentId`, `sanitizeReceiptUrl`, `maskEmail`,
  `canMakeRequest`, `recordRequest` — `src/utils/receipt-handler.ts`
  (`ReceiptErrorHandler`, `ReceiptValidator`, `ReceiptRateLimit`)
* `createReceiptFromPayment` — `src/utils/receipts.ts`

External collaborators (the Stripe SDK, the database driver, `Date.now()`,
React-email rendering) are passed in as explicit oracle parameters, so every
definition is a pure, computable function.  `@/utils/credits`
(`getCreditPackage`, `updateUserCredits`, `logTransaction`,
`getCreditTransactions`) is not part of the snapshot; those four helpers are
modelled from the specification and marked as such in their doc comments.

JavaScript string operations (`includes`, `toLowerCase`, `split`, regular
expression tests, `parseInt`) are re-implemented over `List Char` so that all
predicates are decidable and every theorem can be evaluated on concrete input.
-/

/-! ## JavaScript string primitives -/

/-- JS `String.prototype.includes` on character lists: `listIncl needle hay`
is `true` iff `needle` occurs as a contiguous sublist of `hay`. -/
def listIncl (needle : List Char) : List Char → Bool
  | [] => needle.isEmpty
  | c :: rest => needle.isPrefixOf (c :: rest) || listIncl needle rest

/-- JS `hay.includes(needle)` on Lean strings. -/
def jsIncludes (hay needle : String) : Bool := listIncl needle.toList hay.toList

/-- JS `String.prototype.toLowerCase` (ASCII case mapping, which is all the
source compares). -/
def jsToLower (s : String) : String := String.mk (s.toList.map Char.toLower)

/-- JS `String.prototype.toUpperCase` (ASCII case mapping). -/
def jsToUpper (s : String) : String := String.mk (s.toList.map Char.toUpper)

/-- JS `String.prototype.split` with a single-character separator.  Matches
`"a@b".split('@') = ["a","b"]`, `"@".split('@') = ["",""]`, and
`"x".split('@') = ["x"]`. -/
def splitOnChar (sep : Char) : List Char → List (List Char)
  | [] => [[]]
  | c :: rest =>
    if c = sep then [] :: splitOnChar sep rest
    else
      match splitOnChar sep rest with
      | [] => [[c]]
      | p :: ps => (c :: p) :: ps

/-- Truthiness of a possibly-absent JS string: `undefined`/`null` and the
empty string are falsy, every other string is truthy. -/
def jsTruthy : Option String → Bool
  | none => false
  | some s => !(s == "")

/-- JS `a || b` for possibly-absent strings: keeps `a` when it is truthy,
otherwise yields `b`. -/
def jsOrStr (a : Option String) (b : String) : String :=
  match a with
  | some s => if s == "" then b else s
  | none => b

/-- JS `a || undefined` for possibly-absent strings (empty string collapses
to `undefined`). -/
def jsOrUndef (a : Option String) : Option String :=
  match a with
  | some s => if s == "" then none else some s
  | none => none

/-- JS `a || b` for possibly-absent numbers: `undefined`, `null` and `0` are
falsy. -/
def jsOrInt (a : Option Int) (b : Int) : Int :=
  match a with
  | some n => if n == 0 then b else n
  | none => b

/-- Decimal value of a digit list, most significant first. -/
def digitsVal (ds : List Char) : Nat :=
  ds.foldl (fun acc c => acc * 10 + (c.toNat - '0'.toNat)) 0

/-- JS `parseInt(s)` restricted to decimal input as the source uses it:
skip leading whitespace, read an optional sign, then the longest leading run
of decimal digits; `none` models `NaN`.  (The `0x` radix autodetection of
`parseInt` is not modelled; no theorem below depends on it.) -/
def parseIntJS (s : String) : Option Int :=
  let cs := s.toList.dropWhile (fun c => c = ' ' || c = '\t' || c = '\n' || c = '\r')
  let signAndRest : Int × List Char :=
    match cs with
    | '-' :: rest => (-1, rest)
    | '+' :: rest => (1, rest)
    | rest => (1, rest)
  let digits := signAndRest.2.takeWhile Char.isDigit
  if digits.isEmpty then none
  else some (signAndRest.1 * (digitsVal digits : Int))

/-- JS `parseInt` applied to a possibly-absent string
(`parseInt(undefined)` is `NaN`, modelled as `none`). -/
def parseIntOpt (s : Option String) : Option Int :=
  match s with
  | some v => parseIntJS v
  | none => none

/-! ## Static credit-package catalog -/

/-- A credit package of the static catalog (`id`, granted credits, price). -/
structure CreditPackage where
  id : String
  credits : Nat
  price : Nat
deriving DecidableEq, Repr

/-- Modelled from the spec: `getCreditPackage` (from the absent
`@/utils/credits`) resolves a package id against a static catalog — "Resolve
`packageId` against a static catalog; reject if unknown" (§4.2).  The catalog
is an explicit parameter. -/
def getCreditPackage (catalog : List CreditPackage) (packageId : String) :
    Option CreditPackage :=
  catalog.find? (fun p => p.id == packageId)

/-! ## Ledger model -/

/-- `CREDIT_TRANSACTION_TYPE` from the database schema. -/
inductive CreditTransactionType
  | PURCHASE
  | USAGE
  | AI_USAGE
  | REFUND
  | ADMIN_ADJUSTMENT
deriving DecidableEq, Repr

/-- One row of the `credit_transaction` ledger table, restricted to the
columns the fulfillment paths write. -/
structure Transaction where
  userId : String
  amount : Int
  description : String
  txnType : CreditTransactionType
  expirationDate : Nat
  paymentIntentId : Option String
deriving DecidableEq, Repr

/-- The durable state the fulfillment paths mutate: per-user cached credit
balances plus the append-only transaction ledger. -/
structure LedgerState where
  balances : List (String × Int)
  transactions : List Transaction
deriving DecidableEq, Repr

/-- The empty ledger. -/
def ledger0 : LedgerState := { balances := [], transactions := [] }

/-- Current cached balance of a user (0 when the user has no row). -/
def getBalance (st : LedgerState) (userId : String) : Int :=
  match st.balances.find? (fun p => p.1 == userId) with
  | some p => p.2
  | none => 0

/-- Replace (or create) a user's cached balance entry. -/
def setBalance (st : LedgerState) (userId : String) (v : Int) : LedgerState :=
  { st with
    balances :=
      if st.balances.any (fun p => p.1 == userId) then
        st.balances.map (fun p => if p.1 == userId then (p.1, v) else p)
      else
        st.balances ++ [(userId, v)] }

/-- Modelled from the spec: `updateUserCredits` (from the absent
`@/utils/credits`) — "increment the user's balance by `creditAmount`"
(§4.2 step 4). -/
def updateUserCredits (userId : String) (amount : Int) (st : LedgerState) :
    LedgerState :=
  setBalance st userId (getBalance st userId + amount)

/-- Modelled from the spec: `logTransaction` (from the absent
`@/utils/credits`) appends one row to the append-only ledger — rows are
"created exactly once …; never mutated; never deleted" (§3). -/
def logTransaction (t : Transaction) (st : LedgerState) : LedgerState :=
  { st with transactions := st.transactions ++ [t] }

/-- Number of PURCHASE ledger rows carrying a given payment reference. -/
def purchaseCount (st : LedgerState) (pid : String) : Nat :=
  (st.transactions.filter
    (fun t => t.txnType == CreditTransactionType.PURCHASE &&
              t.paymentIntentId == some pid)).length

/-! ## Stripe event envelope and webhook endpoint -/

/-- The `metadata` object of a payment intent; each field may be absent. -/
structure PaymentIntentMetadata where
  userId : Option String
  packageId : Option String
  credits : Option String
deriving DecidableEq, Repr

/-- The payment-intent object carried by a webhook event. -/
structure PaymentIntentObj where
  id : String
  metadata : PaymentIntentMetadata
deriving DecidableEq, Repr

/-- A parsed Stripe event, routed on its declared type string. -/
inductive StripeEvent
  | paymentIntentSucceeded (pi : PaymentIntentObj)
  | paymentIntentFailed (pi : PaymentIntentObj)
  | otherEvent (eventType : String)
deriving DecidableEq, Repr

/-- An HTTP response of the webhook endpoint: status code plus the `error`
field of the JSON body (`none` for the `{received: true}` acknowledgement). -/
structure HttpResponse where
  status : Nat
  error : Option String
deriving DecidableEq, Repr

/-- The inbound webhook request: raw body text plus the optional
`stripe-signature` header. -/
structure WebhookRequest where
  body : String
  signature : Option String
deriving DecidableEq, Repr

/-- The 200 acknowledgement `NextResponse.json({received: true})`. -/
def okResponse : HttpResponse := { status := 200, error := none }

/-- `CREDITS_EXPIRATION_YEARS` converted to milliseconds
(`ms("...years")`); kept abstract as a fixed constant, its value is never
inspected by a theorem. -/
def creditsExpirationMs : Nat := 63115200000

/-- `POST` of `src/app/api/webhooks/stripe/route.ts`.

* `constructEvent body sig secret` is the oracle for
  `stripe.webhooks.constructEvent`: `some ev` when the signature verifies
  over the exact raw body and parsing succeeds, `none` when it throws.
* `dbAvailable = false` models the database layer throwing on the first
  write (`updateUserCredits`), which the surrounding `try` converts into the
  500 "Webhook handler failed" response; the resulting state is not used by
  any theorem below.
* `now` is `Date.now()`. -/
def webhookPOST (secret : Option String)
    (constructEvent : String → String → String → Option StripeEvent)
    (catalog : List CreditPackage) (dbAvailable : Bool) (now : Nat)
    (req : WebhookRequest) (st : LedgerState) : HttpResponse × LedgerState :=
  match secret with
  | none => ({ status := 500, error := some "Webhook secret not configured" }, st)
  | some sec =>
    match req.signature with
    | none => ({ status := 400, error := some "Missing signature" }, st)
    | some sig =>
      match constructEvent req.body sig sec with
      | none => ({ status := 400, error := some "Invalid signature" }, st)
      | some ev =>
        match ev with
        | StripeEvent.paymentIntentSucceeded pi =>
          if !(jsTruthy pi.metadata.userId && jsTruthy pi.metadata.packageId &&
               jsTruthy pi.metadata.credits) then
            (okResponse, st)
          else
            match getCreditPackage catalog (pi.metadata.packageId.getD "") with
            | none => (okResponse, st)
            | some pkg =>
              if parseIntJS (pi.metadata.credits.getD "") ≠ some (pkg.credits : Int) then
                (okResponse, st)
              else if !dbAvailable then
                ({ status := 500, error := some "Webhook handler failed" }, st)
              else
                let uid := pi.metadata.userId.getD ""
                let st1 := updateUserCredits uid (pkg.credits : Int) st
                let st2 := logTransaction
                  { userId := uid
                    amount := (pkg.credits : Int)
                    description :=
                      "Purchased " ++ toString pkg.credits ++ " credits (webhook)"
                    txnType := CreditTransactionType.PURCHASE
                    expirationDate := now + creditsExpirationMs
                    paymentIntentId := some pi.id } st1
                (okResponse, st2)
        | StripeEvent.paymentIntentFailed _ => (okResponse, st)
        | StripeEvent.otherEvent _ => (okResponse, st)

/-! ## The client `confirmPayment` server action -/

/-- A payment intent as returned by `stripe.paymentIntents.retrieve` in
`confirmPayment`. -/
structure RetrievedIntent where
  id : String
  status : String
  metadata : PaymentIntentMetadata
deriving DecidableEq, Repr

/-- The `confirmPayment` server action (credits actions file).  `retrievePI`
is the oracle for `stripe.paymentIntents.retrieve` (`none` when it throws);
`sessionUser` is the authenticated caller id.  Every failure inside the
`try` is caught and rethrown as "Failed to process payment". -/
def confirmPayment (catalog : List CreditPackage)
    (retrievePI : String → Option RetrievedIntent)
    (sessionUser : Option String) (now : Nat)
    (packageId paymentIntentId : String) (st : LedgerState) :
    Except String Unit × LedgerState :=
  match sessionUser with
  | none => (Except.error "Unauthorized", st)
  | some uid =>
    match getCreditPackage catalog packageId with
    | none => (Except.error "Failed to process payment", st)
    | some pkg =>
      match retrievePI paymentIntentId with
      | none => (Except.error "Failed to process payment", st)
      | some pi =>
        if pi.status ≠ "succeeded" then
          (Except.error "Failed to process payment", st)
        else if pi.metadata.userId ≠ some uid ∨
                pi.metadata.packageId ≠ some packageId ∨
                parseIntOpt pi.metadata.credits ≠ some (pkg.credits : Int) then
          (Except.error "Failed to process payment", st)
        else
          let st1 := updateUserCredits uid (pkg.credits : Int) st
          let st2 := logTransaction
            { userId := uid
              amount := (pkg.credits : Int)
              description := "Purchased " ++ toString pkg.credits ++ " credits"
              txnType := CreditTransactionType.PURCHASE
              expirationDate := now + creditsExpirationMs
              paymentIntentId := some pi.id } st1
          (Except.ok (), st2)

/-! ## `src/utils/receipt-handler.ts` — error handling, validation, rate limit -/

/-- The `type` discriminant of a `ReceiptError`. -/
inductive ReceiptErrorType
  | STRIPE_ERROR
  | AUTHORIZATION_ERROR
  | NOT_FOUND_ERROR
  | NETWORK_ERROR
  | VALIDATION_ERROR
deriving DecidableEq, Repr

/-- The `ReceiptError` record produced by `ReceiptErrorHandler.handleError`. -/
structure ReceiptError where
  etype : ReceiptErrorType
  message : String
  userMessage : String
  retryable : Bool
deriving DecidableEq, Repr

/-- A thrown JS value as `handleError` discriminates it: a Stripe SDK error
(an object with a `type` field, also an `Error` instance, so an unmatched
Stripe type falls through to the message tests), a plain `Error`, or any
other value. -/
inductive ThrownError
  | stripeTyped (stripeType : String) (message : String)
  | jsError (message : String)
  | otherValue
deriving DecidableEq, Repr

/-- The `error instanceof Error` branch of `handleError`: classify by
case-insensitive substring tests on the message. -/
def handleErrorMessage (msg : String) : ReceiptError :=
  let m := jsToLower msg
  if jsIncludes m "unauthorized" || jsIncludes m "access denied" then
    { etype := ReceiptErrorType.AUTHORIZATION_ERROR
      message := msg
      userMessage := "You do not have permission to view this receipt."
      retryable := false }
  else if jsIncludes m "not found" || jsIncludes m "does not exist" then
    { etype := ReceiptErrorType.NOT_FOUND_ERROR
      message := msg
      userMessage := "Receipt not found for this transaction."
      retryable := false }
  else if jsIncludes m "test mode" || jsIncludes m "test data" then
    { etype := ReceiptErrorType.VALIDATION_ERROR
      message := msg
      userMessage :=
        "Receipt not available for test transactions. Try with a live payment in production."
      retryable := false }
  else if jsIncludes m "network" || jsIncludes m "timeout" ||
          jsIncludes m "connection" then
    { etype := ReceiptErrorType.NETWORK_ERROR
      message := msg
      userMessage := "Network error occurred. Please check your connection and try again."
      retryable := true }
  else
    { etype := ReceiptErrorType.VALIDATION_ERROR
      message := msg
      userMessage := "Unable to process receipt request. Please try again."
      retryable := true }

/-- `ReceiptErrorHandler.handleError`. -/
def handleError : ThrownError → ReceiptError
  | ThrownError.stripeTyped t msg =>
    if t == "StripeInvalidRequestError" then
      { etype := ReceiptErrorType.STRIPE_ERROR
        message := msg
        userMessage := "Receipt information is not available for this transaction."
        retryable := false }
    else if t == "StripeAuthenticationError" then
      { etype := ReceiptErrorType.STRIPE_ERROR
        message := msg
        userMessage := "Unable to verify receipt information. Please try again later."
        retryable := true }
    else if t == "StripeConnectionError" || t == "StripeAPIError" then
      { etype := ReceiptErrorType.NETWORK_ERROR
        message := msg
        userMessage := "Unable to connect to payment service. Please try again later."
        retryable := true }
    else if t == "StripeRateLimitError" then
      { etype := ReceiptErrorType.NETWORK_ERROR
        message := msg
        userMessage := "Service is temporarily busy. Please try again in a moment."
        retryable := true }
    else
      handleErrorMessage msg
  | ThrownError.jsError msg => handleErrorMessage msg
  | ThrownError.otherValue =>
    { etype := ReceiptErrorType.VALIDATION_ERROR
      message := "Unknown error occurred"
      userMessage := "An unexpected error occurred. Please try again later."
      retryable := true }

/-- `ReceiptValidator.isValidPaymentIntentId`: the regular expression
`^pi_[a-zA-Z0-9_]+$`. -/
def isValidPaymentIntentId (s : String) : Bool :=
  "pi_".toList.isPrefixOf s.toList &&
  !(s.toList.drop 3).isEmpty &&
  (s.toList.drop 3).all (fun c => c.isAlphanum || c = '_')

/-- Hostname of a URL as the WHATWG `URL` constructor produces it,
restricted to the ordinary `http(s)://host[[:port]][/?#…]` shapes the
receipt URLs take (no userinfo, no IPv6 literals): strip the scheme, take
characters up to `/`, `?`, `#` or `:`, lowercase them; `none` models the
constructor throwing. -/
def urlHostname (url : String) : Option String :=
  let cs := url.toList
  let afterScheme : Option (List Char) :=
    if "https://".toList.isPrefixOf cs then some (cs.drop 8)
    else if "http://".toList.isPrefixOf cs then some (cs.drop 7)
    else none
  match afterScheme with
  | none => none
  | some rest =>
    let host := rest.takeWhile (fun c => c ≠ '/' && c ≠ '?' && c ≠ '#' && c ≠ ':')
    if host.isEmpty then none else some (String.mk (host.map Char.toLower))

/-- `ReceiptValidator.sanitizeReceiptUrl`: `null`-propagate, parse, and keep
the URL when the hostname *contains* `stripe.com` or `stripe-images.com` as
a substring (`hostname.includes(...)`). -/
def sanitizeReceiptUrl (url : Option String) : Option String :=
  match url with
  | none => none
  | some u =>
    if u == "" then none
    else
      match urlHostname u with
      | none => none
      | some host =>
        if jsIncludes host "stripe.com" || jsIncludes host "stripe-images.com" then
          some u
        else none

/-- Follows the spec's words, for comparison with `sanitizeReceiptUrl`: a
host is a "known trusted host" for receipt URLs when it is `stripe.com` or
`stripe-images.com` or a subdomain of one of them. -/
def specTrustedReceiptHost (h : String) : Bool :=
  h == "stripe.com" || h == "stripe-images.com" ||
  ".stripe.com".toList.isSuffixOf h.toList ||
  ".stripe-images.com".toList.isSuffixOf h.toList

/-- The email-masking core of `ReceiptValidator.maskSensitiveData`, over the
characters of the email: split on `'@'`, and when both the first part and
the second part are non-empty, keep the first two characters of the local
part, star the rest, and reassemble with the second part (any further
`'@'`-separated parts are dropped by the destructuring, faithfully to the
source). -/
def maskEmail (email : List Char) : List Char :=
  match splitOnChar '@' email with
  | localPart :: domain :: _ =>
    if localPart ≠ [] ∧ domain ≠ [] then
      let maskedLocal :=
        if localPart.length > 2 then
          localPart.take 2 ++ List.replicate (localPart.length - 2) '*'
        else localPart
      maskedLocal ++ '@' :: domain
    else email
  | _ => email

/-- `maskEmail` on Lean strings. -/
def maskEmailStr (email : String) : String := String.mk (maskEmail email.toList)

/-! ### `ReceiptRateLimit` (sliding window, 10 requests / 60 s) -/

/-- `ReceiptRateLimit.MAX_REQUESTS_PER_MINUTE`. -/
def MAX_REQUESTS_PER_MINUTE : Nat := 10

/-- `ReceiptRateLimit.WINDOW_MS`. -/
def WINDOW_MS : Nat := 60000

/-- The `private static requests = new Map<string, number[]>()` store:
per-user lists of request timestamps (ms). -/
abbrev RLStore := List (String × List Nat)

/-- `requests.get(userId) || []`. -/
def rlGet (store : RLStore) (userId : String) : List Nat :=
  match List.find? (fun p => p.1 == userId) store with
  | some p => p.2
  | none => []

/-- `requests.set(userId, v)`: replace the user's binding, or append a new
one. -/
def rlSet : RLStore → String → List Nat → RLStore
  | [], userId, v => [(userId, v)]
  | (k, w) :: rest, userId, v =>
    if k == userId then (k, v) :: rest else (k, w) :: rlSet rest userId v

/-- Timestamps still inside the sliding window at time `now`
(`now - timestamp < WINDOW_MS`; with `Nat` truncated subtraction a future
timestamp yields `0 < WINDOW_MS`, exactly as the JS signed subtraction
yields a negative number below the window). -/
def recentRequests (now : Nat) (reqs : List Nat) : List Nat :=
  reqs.filter (fun t => now - t < WINDOW_MS)

/-- `ReceiptRateLimit.canMakeRequest`: prune the user's timestamps to the
window, store the pruned list back, and admit iff fewer than
`MAX_REQUESTS_PER_MINUTE` remain. -/
def canMakeRequest (now : Nat) (store : RLStore) (userId : String) :
    Bool × RLStore :=
  let recent := recentRequests now (rlGet store userId)
  (recent.length < MAX_REQUESTS_PER_MINUTE, rlSet store userId recent)

/-- `ReceiptRateLimit.recordRequest`: append `now` to the user's list. -/
def recordRequest (now : Nat) (store : RLStore) (userId : String) : RLStore :=
  rlSet store userId (rlGet store userId ++ [now])

/-- The rate-limit gate exactly as `getReceiptInfo` drives it: check, and
record only when admitted. -/
def receiptRateGate (now : Nat) (store : RLStore) (userId : String) :
    Bool × RLStore :=
  let checked := canMakeRequest now store userId
  if checked.1 then (true, recordRequest now checked.2 userId)
  else (false, checked.2)

/-- Run the gate over a list of request times, collecting each admission
decision and the final store. -/
def runGate (userId : String) : List Nat → RLStore → List Bool × RLStore
  | [], store => ([], store)
  | t :: ts, store =>
    let step := receiptRateGate t store userId
    let rest := runGate userId ts step.2
    (step.1 :: rest.1, rest.2)

/-! ## The `getReceiptInfo` server action -/

/-- Card sub-object of `payment_method_details`. -/
structure CardDetails where
  last4 : Option String
  brand : Option String
deriving DecidableEq, Repr

/-- `payment_method_details` of a charge. -/
structure PaymentMethodDetails where
  pmdType : Option String
  card : Option CardDetails
deriving DecidableEq, Repr

/-- `billing_details` of a charge (restricted to the one field the code
touches). -/
structure BillingDetails where
  email : Option String
deriving DecidableEq, Repr

/-- A Stripe charge object, restricted to the fields `getReceiptInfo`
reads. -/
structure ChargeData where
  receipt_url : Option String
  receipt_number : Option String
  amount : Option Int
  currency : Option String
  created : Option Nat
  description : Option String
  payment_method_details : Option PaymentMethodDetails
  billing_details : Option BillingDetails
deriving DecidableEq, Repr

/-- A payment intent as `getReceiptInfo` retrieves it (with
`expand: ['charges']`): `charges` is the possibly-absent-or-empty
`charges.data` array, `latest_charge` is either an expanded object
(`Sum.inl`) or a bare charge id (`Sum.inr`). -/
structure ExpandedIntent where
  status : String
  charges : List ChargeData
  latest_charge : Option (ChargeData ⊕ String)
  amount : Int
  currency : String
  description : Option String
deriving DecidableEq, Repr

/-- The Stripe SDK surface `getReceiptInfo` calls: `retrieveIntent` models
`paymentIntents.retrieve` (`Except.error` is a thrown SDK error) and
`retrieveCharge` models `charges.retrieve` (`none` is a thrown error, which
the source catches and logs). -/
structure ReceiptStripeOracle where
  retrieveIntent : String → Except ThrownError ExpandedIntent
  retrieveCharge : String → Option ChargeData

/-- The masked card summary of the receipt-info response. -/
structure PaymentMethodSummary where
  pmType : String
  last4 : String
  brand : String
deriving DecidableEq, Repr

/-- The receipt-info object `getReceiptInfo` returns. -/
structure ReceiptInfo where
  receiptUrl : Option String
  receiptNumber : Option String
  amount : Int
  currency : String
  created : Nat
  description : String
  paymentMethodDetails : PaymentMethodSummary
  billingDetails : Option BillingDetails
deriving DecidableEq, Repr

/-- JS `a || b` for possibly-absent non-negative numbers (`0` is falsy). -/
def jsOrNat (a : Option Nat) (b : Nat) : Nat :=
  match a with
  | some n => if n == 0 then b else n
  | none => b

/-- `ReceiptValidator.maskSensitiveData`: mask the billing email (when
present and truthy); every other field is returned as is. -/
def maskReceiptInfo (r : ReceiptInfo) : ReceiptInfo :=
  match r.billingDetails with
  | some b =>
    match b.email with
    | some e =>
      if e ≠ "" then
        { r with billingDetails := some { b with email := some (maskEmailStr e) } }
      else r
    | none => r
  | none => r

/-- A row of the caller's transaction listing, restricted to the fields
`getReceiptInfo` reads. -/
structure UserTxn where
  paymentIntentId : Option String
  description : String
deriving DecidableEq, Repr

/-- Modelled from the spec: `getCreditTransactions` (from the absent
`@/utils/credits`) — paginated listing of a user's own ledger rows; page
`p` with limit `l` returns rows `(p-1)*l` through `p*l - 1` of the user's
transactions in the store's listing order. -/
def getCreditTransactionsPage (userTxns : List UserTxn) (page limit : Nat) :
    List UserTxn :=
  (userTxns.drop ((page - 1) * limit)).take limit

/-- The `getReceiptInfo` server action (credits actions file).  The body of
the inner `try` is embedded step by step; any value it throws is mapped by
`ReceiptErrorHandler.handleError` and rethrown as
`Error(handledError.userMessage)`, so the `Except.error` payload is that
user message.  `userTxns` is the caller's own transaction listing (the
database query is keyed by `session.user.id`); `devMode` is
`process.env.NODE_ENV === "development"`; `now` is `Date.now()` in ms.
(The outer `withRateLimit` wrapper is an absent collaborator and out of
scope; the receipt path's own limiter is `ReceiptRateLimit`.) -/
def getReceiptInfo (stripe : ReceiptStripeOracle) (devMode : Bool) (now : Nat)
    (sessionUser : Option String) (userTxns : List UserTxn)
    (rl : RLStore) (paymentIntentId : String) :
    Except String ReceiptInfo × RLStore :=
  match sessionUser with
  | none => (Except.error "Unauthorized", rl)
  | some uid =>
    if !(isValidPaymentIntentId paymentIntentId) then
      (Except.error
        (handleError (ThrownError.jsError "Invalid payment intent ID format")).userMessage,
       rl)
    else
      let gate := canMakeRequest now rl uid
      if !gate.1 then
        (Except.error
          (handleError (ThrownError.jsError
            "Too many receipt requests. Please try again later.")).userMessage,
         gate.2)
      else
        let rl2 := recordRequest now gate.2 uid
        let page := getCreditTransactionsPage userTxns 1 1000
        match page.find? (fun t => t.paymentIntentId == some paymentIntentId) with
        | none =>
          (Except.error
            (handleError (ThrownError.jsError
              "Transaction not found or unauthorized")).userMessage,
           rl2)
        | some userTransaction =>
          match stripe.retrieveIntent paymentIntentId with
          | Except.error e => (Except.error (handleError e).userMessage, rl2)
          | Except.ok pi =>
            if pi.status ≠ "succeeded" then
              (Except.error
                (handleError (ThrownError.jsError "Payment not completed")).userMessage,
               rl2)
            else
              let chargeData : Option ChargeData :=
                match pi.charges with
                | c :: _ => some c
                | [] =>
                  match pi.latest_charge with
                  | some (Sum.inl c) => some c
                  | some (Sum.inr cid) => stripe.retrieveCharge cid
                  | none => none
              match chargeData with
              | none =>
                if "pi_test_".toList.isPrefixOf paymentIntentId.toList || devMode then
                  (Except.error
                    (handleError (ThrownError.jsError
                      "Receipt not available in test mode. This transaction was processed with test data.")).userMessage,
                   rl2)
                else
                  (Except.error
                    (handleError (ThrownError.jsError
                      "Receipt information is not available for this transaction.")).userMessage,
                   rl2)
              | some c =>
                let raw : ReceiptInfo :=
                  { receiptUrl := sanitizeReceiptUrl c.receipt_url
                    receiptNumber := jsOrUndef c.receipt_number
                    amount := jsOrInt c.amount pi.amount
                    currency := jsOrStr c.currency pi.currency
                    created := jsOrNat c.created (now / 1000)
                    description :=
                      jsOrStr c.description
                        (jsOrStr pi.description userTransaction.description)
                    paymentMethodDetails :=
                      { pmType :=
                          jsOrStr (c.payment_method_details.bind (fun d => d.pmdType)) "card"
                        last4 :=
                          jsOrStr ((c.payment_method_details.bind (fun d => d.card)).bind
                            (fun cd => cd.last4)) "****"
                        brand :=
                          jsOrStr ((c.payment_method_details.bind (fun d => d.card)).bind
                            (fun cd => cd.brand)) "unknown" }
                    billingDetails := c.billing_details }
                (Except.ok (maskReceiptInfo raw), rl2)

/-! ## `src/utils/receipts.ts` — receipt generation -/

/-- A Stripe `PaymentMethod` object, restricted to the fields
`createReceiptFromPayment` reads. -/
structure PMObject where
  pmType : Option String
  card : Option CardDetails
deriving DecidableEq, Repr

/-- A charge as it appears in `latest_charge` after
`expand: ['latest_charge']`: its `payment_method` is either a bare id
(`Sum.inl`) or an expanded object (`Sum.inr`). -/
structure LatestCharge where
  id : String
  payment_method : Option (String ⊕ PMObject)
deriving DecidableEq, Repr

/-- A payment intent as `createReceiptFromPayment` retrieves it (with
`expand: ['latest_charge']`). -/
structure GeneratorIntent where
  id : String
  status : String
  amount : Int
  currency : String
  created : Nat
  latest_charge : Option LatestCharge
deriving DecidableEq, Repr

/-- User row read by the generator. -/
structure UserRecord where
  firstName : Option String
  lastName : Option String
  email : Option String
deriving DecidableEq, Repr

/-- Credit-transaction row read by the generator. -/
structure TxnRecord where
  amount : Int
  description : String
deriving DecidableEq, Repr

/-- The `receipt` row the generator persists (restricted to the fields the
claims mention). -/
structure ReceiptRow where
  userId : String
  transactionId : String
  paymentIntentId : String
  stripeChargeId : Option String
  receiptNumber : String
  amount : Int
  currency : String
  paymentMethod : String
  cardLast4 : Option String
  cardBrand : Option String
  downloadToken : String
  emailSent : Bool
deriving DecidableEq, Repr

/-- The external world of `createReceiptFromPayment`: the Stripe SDK
(`retrieveIntent` / `retrievePM`, `none` modelling a thrown error), the two
database point reads, the generated receipt number and download token, and
whether the outbound email send succeeds. -/
structure GeneratorWorld where
  retrieveIntent : String → Option GeneratorIntent
  retrievePM : String → Option PMObject
  findUser : String → Option UserRecord
  findTxn : String → Option TxnRecord
  receiptNumber : String
  downloadToken : String
  emailOk : Bool
deriving Nonempty

/-- `createReceiptFromPayment` of `src/utils/receipts.ts`.  Every throw
inside the outer `try` is caught and rethrown as
`Error('Failed to create receipt')`; the inner `paymentMethods.retrieve`
failure and the email failure are caught locally and do not fail the
operation.  On success the persisted `ReceiptRow` is returned. -/
def createReceiptFromPayment (w : GeneratorWorld) (sendEmail : Bool)
    (paymentIntentId userId transactionId : String) :
    Except String ReceiptRow :=
  match w.retrieveIntent paymentIntentId with
  | none => Except.error "Failed to create receipt"
  | some pi =>
    if pi.status ≠ "succeeded" then Except.error "Failed to create receipt"
    else
      match w.findUser userId, w.findTxn transactionId with
      | some user, some _txn =>
        let paymentMethod : Option PMObject :=
          match pi.latest_charge with
          | none => none
          | some charge =>
            match charge.payment_method with
            | none => none
            | some (Sum.inl pmId) => w.retrievePM pmId
            | some (Sum.inr pm) => some pm
        let row : ReceiptRow :=
          { userId := userId
            transactionId := transactionId
            paymentIntentId := pi.id
            stripeChargeId := (pi.latest_charge.map (fun c => c.id))
            receiptNumber := w.receiptNumber
            amount := pi.amount
            currency := jsToUpper pi.currency
            paymentMethod :=
              if (paymentMethod.bind (fun p => p.pmType)) == some "card" then
                "Credit Card"
              else "Payment Card"
            cardLast4 := jsOrUndef ((paymentMethod.bind (fun p => p.card)).bind
              (fun cd => cd.last4))
            cardBrand := jsOrUndef ((paymentMethod.bind (fun p => p.card)).bind
              (fun cd => cd.brand))
            downloadToken := w.downloadToken
            emailSent := sendEmail && jsTruthy user.email && w.emailOk }
        Except.ok row
      | _, _ => Except.error "Failed to create receipt"

/-! ## Theorems -/

/-- C2: for every inbound payment-succeeded event whose metadata names a
package id unknown to the catalog, or whose claimed credits value does not
parse to the catalog's credit amount for that package id, the webhook
fulfillment path performs no ledger write and no balance update. -/
theorem webhook_catalog_integrity
    (sec : String) (ce : String → String → String → Option StripeEvent)
    (catalog : List CreditPackage) (dbAvailable : Bool) (now : Nat)
    (req : WebhookRequest) (st : LedgerState) (sig : String) (pi : PaymentIntentObj)
    (hsig : req.signature = some sig)
    (hev : ce req.body sig sec = some (StripeEvent.paymentIntentSucceeded pi))
    (hbad : getCreditPackage catalog (pi.metadata.packageId.getD "") = none ∨
      ∀ pkg, getCreditPackage catalog (pi.metadata.packageId.getD "") = some pkg →
        parseIntJS (pi.metadata.credits.getD "") ≠ some (pkg.credits : Int)) :
    (webhookPOST (some sec) ce catalog dbAvailable now req st).2 = st := by
  simp only [webhookPOST, hsig, hev]
  by_cases hm : (jsTruthy pi.metadata.userId && jsTruthy pi.metadata.packageId &&
      jsTruthy pi.metadata.credits) = true
  · rcases hbad with hnone | hmis
    · simp [hm, hnone]
    · rcases hcat : getCreditPackage catalog (pi.metadata.packageId.getD "") with _ | pkg
      · simp [hm, hcat]
      · simp [hm, hcat, hmis pkg hcat]
  · simp [hm]

/-- C2 witness: a concrete event claiming 9999 credits for a package worth
1200 leaves the ledger untouched. -/
theorem webhook_catalog_integrity_witness :
    (⟨"rawbody", some "sig1"⟩ : WebhookRequest).signature = some "sig1" ∧
    (fun _ _ _ => some (StripeEvent.paymentIntentSucceeded
        ⟨"pi_1", ⟨some "u1", some "p100", some "9999"⟩⟩)
      : String → String → String → Option StripeEvent) "rawbody" "sig1" "whsec" =
      some (StripeEvent.paymentIntentSucceeded
        ⟨"pi_1", ⟨some "u1", some "p100", some "9999"⟩⟩) ∧
    (webhookPOST (some "whsec")
      (fun _ _ _ => some (StripeEvent.paymentIntentSucceeded
        ⟨"pi_1", ⟨some "u1", some "p100", some "9999"⟩⟩))
      [⟨"p100", 1200, 12⟩] true 0 ⟨"rawbody", some "sig1"⟩ ledger0).2 = ledger0 :=
  ⟨rfl, rfl,
    webhook_catalog_integrity "whsec" _ [⟨"p100", 1200, 12⟩] true 0 _ ledger0 "sig1"
      ⟨"pi_1", ⟨some "u1", some "p100", some "9999"⟩⟩ rfl rfl
      (Or.inr (fun pkg hpkg => by
        have : pkg = ⟨"p100", 1200, 12⟩ := by
          simpa [getCreditPackage] using hpkg.symm
        subst this
        decide))⟩

/-- C6 counterexample: when the shared webhook secret is missing the
endpoint answers status 500 — a server-error response, not the
authentication-error (4xx) response the claim asserts for that case. -/
theorem webhook_missing_secret_not_auth_error :
    (webhookPOST none (fun _ _ _ => none) [] true 0
      ⟨"rawbody", some "sig1"⟩ ledger0).1.status = 500 ∧
    ¬(400 ≤ (webhookPOST none (fun _ _ _ => none) [] true 0
        ⟨"rawbody", some "sig1"⟩ ledger0).1.status ∧
      (webhookPOST none (fun _ _ _ => none) [] true 0
        ⟨"rawbody", some "sig1"⟩ ledger0).1.status < 500) := by
  constructor
  · rfl
  · decide

/-- C6 (amended): a missing signature header or a signature that fails to
verify over the exact raw body yields a 400 authentication-error response; a
missing shared secret yields a 500 server-error response; in all three
cases the ledger is untouched and the result is independent of the body's
content (the event is never parsed: the verification oracle is not
consulted for the first two cases, and its parse result is discarded in the
third). -/
theorem webhook_signature_gate
    (ce : String → String → String → Option StripeEvent)
    (catalog : List CreditPackage) (dbAvailable : Bool) (now : Nat)
    (req : WebhookRequest) (st : LedgerState) :
    (webhookPOST none ce catalog dbAvailable now req st =
      ({ status := 500, error := some "Webhook secret not configured" }, st)) ∧
    (∀ sec, req.signature = none →
      webhookPOST (some sec) ce catalog dbAvailable now req st =
        ({ status := 400, error := some "Missing signature" }, st)) ∧
    (∀ sec sig, req.signature = some sig → ce req.body sig sec = none →
      webhookPOST (some sec) ce catalog dbAvailable now req st =
        ({ status := 400, error := some "Invalid signature" }, st)) := by
  refine ⟨rfl, ?_, ?_⟩
  · intro sec hnone
    simp only [webhookPOST, hnone]
  · intro sec sig hsig hfail
    simp only [webhookPOST, hsig, hfail]

/-- C6 witness: the three branches of `webhook_signature_gate` at concrete
inputs. -/
theorem webhook_signature_gate_witness :
    (webhookPOST none (fun _ _ _ => none) [] true 0 ⟨"rawbody", some "s"⟩ ledger0 =
      ({ status := 500, error := some "Webhook secret not configured" }, ledger0)) ∧
    ((⟨"rawbody", none⟩ : WebhookRequest).signature = none ∧
      webhookPOST (some "whsec") (fun _ _ _ => none) [] true 0
        ⟨"rawbody", none⟩ ledger0 =
        ({ status := 400, error := some "Missing signature" }, ledger0)) ∧
    ((⟨"rawbody", some "s"⟩ : WebhookRequest).signature = some "s" ∧
      (fun _ _ _ => none : String → String → String → Option StripeEvent)
        "rawbody" "s" "whsec" = none ∧
      webhookPOST (some "whsec") (fun _ _ _ => none) [] true 0
        ⟨"rawbody", some "s"⟩ ledger0 =
        ({ status := 400, error := some "Invalid signature" }, ledger0)) :=
  ⟨(webhook_signature_gate (fun _ _ _ => none) [] true 0 ⟨"rawbody", some "s"⟩ ledger0).1,
   ⟨rfl, (webhook_signature_gate (fun _ _ _ => none) [] true 0 ⟨"rawbody", none⟩
      ledger0).2.1 "whsec" rfl⟩,
   ⟨rfl, rfl, (webhook_signature_gate (fun _ _ _ => none) [] true 0
      ⟨"rawbody", some "s"⟩ ledger0).2.2 "whsec" "s" rfl rfl⟩⟩

/-- C7: for every verified event, a structural fulfillment failure (missing
metadata field, unknown package, credit-amount mismatch) and an unrecognized
or payment-failed event type are acknowledged with the 200 success response,
while an exception escaping the fulfillment steps (database unavailable on a
valid fulfillment) yields the 500 server-error response so the gateway
redelivers. -/
theorem webhook_ack_policy
    (sec : String) (ce : String → String → String → Option StripeEvent)
    (catalog : List CreditPackage) (dbAvailable : Bool) (now : Nat)
    (req : WebhookRequest) (st : LedgerState) (sig : String)
    (hsig : req.signature = some sig) :
    (∀ pi, ce req.body sig sec = some (StripeEvent.paymentIntentSucceeded pi) →
      (jsTruthy pi.metadata.userId && jsTruthy pi.metadata.packageId &&
        jsTruthy pi.metadata.credits) = false →
      (webhookPOST (some sec) ce catalog dbAvailable now req st).1 = okResponse) ∧
    (∀ pi, ce req.body sig sec = some (StripeEvent.paymentIntentSucceeded pi) →
      getCreditPackage catalog (pi.metadata.packageId.getD "") = none →
      (webhookPOST (some sec) ce catalog dbAvailable now req st).1 = okResponse) ∧
    (∀ pi pkg, ce req.body sig sec = some (StripeEvent.paymentIntentSucceeded pi) →
      getCreditPackage catalog (pi.metadata.packageId.getD "") = some pkg →
      parseIntJS (pi.metadata.credits.getD "") ≠ some (pkg.credits : Int) →
      (webhookPOST (some sec) ce catalog dbAvailable now req st).1 = okResponse) ∧
    (∀ pi pkg, ce req.body sig sec = some (StripeEvent.paymentIntentSucceeded pi) →
      (jsTruthy pi.metadata.userId && jsTruthy pi.metadata.packageId &&
        jsTruthy pi.metadata.credits) = true →
      getCreditPackage catalog (pi.metadata.packageId.getD "") = some pkg →
      parseIntJS (pi.metadata.credits.getD "") = some (pkg.credits : Int) →
      dbAvailable = false →
      (webhookPOST (some sec) ce catalog dbAvailable now req st).1 =
        { status := 500, error := some "Webhook handler failed" }) ∧
    (∀ pi, ce req.body sig sec = some (StripeEvent.paymentIntentFailed pi) →
      (webhookPOST (some sec) ce catalog dbAvailable now req st).1 = okResponse) ∧
    (∀ et, ce req.body sig sec = some (StripeEvent.otherEvent et) →
      (webhookPOST (some sec) ce catalog dbAvailable now req st).1 = okResponse) := by
  refine ⟨?_, ?_, ?_, ?_, ?_, ?_⟩
  · intro pi hev hm
    simp only [webhookPOST, hsig, hev, hm]
    simp
  · intro pi hev hnone
    simp only [webhookPOST, hsig, hev, hnone]
    by_cases hm : (jsTruthy pi.metadata.userId && jsTruthy pi.metadata.packageId &&
        jsTruthy pi.metadata.credits) = true <;> simp [hm, hnone]
  · intro pi pkg hev hpkg hmis
    simp only [webhookPOST, hsig, hev]
    by_cases hm : (jsTruthy pi.metadata.userId && jsTruthy pi.metadata.packageId &&
        jsTruthy pi.metadata.credits) = true <;> simp [hm, hpkg, hmis]
  · intro pi pkg hev hm hpkg hmatch hdb
    subst hdb
    simp only [webhookPOST, hsig, hev, hm, hpkg, hmatch]
    simp [hm, hpkg, hmatch]
  · intro pi hev
    simp only [webhookPOST, hsig, hev]
  · intro et hev
    simp only [webhookPOST, hsig, hev]

/-- C7 witness: the acknowledgement branches at concrete inputs — an
unhandled `charge.updated` event is acknowledged with 200, and a valid
fulfillment with the database down yields 500. -/
theorem webhook_ack_policy_witness :
    ((⟨"rawbody", some "s"⟩ : WebhookRequest).signature = some "s" ∧
      (fun _ _ _ => some (StripeEvent.otherEvent "charge.updated")
        : String → String → String → Option StripeEvent) "rawbody" "s" "whsec" =
        some (StripeEvent.otherEvent "charge.updated") ∧
      (webhookPOST (some "whsec") (fun _ _ _ => some (StripeEvent.otherEvent "charge.updated"))
        [] true 0 ⟨"rawbody", some "s"⟩ ledger0).1 = okResponse) ∧
    ((webhookPOST (some "whsec")
        (fun _ _ _ => some (StripeEvent.paymentIntentSucceeded
          ⟨"pi_9", ⟨some "u1", some "p100", some "1200"⟩⟩))
        [⟨"p100", 1200, 12⟩] false 0 ⟨"rawbody", some "s"⟩ ledger0).1 =
      { status := 500, error := some "Webhook handler failed" }) :=
  ⟨⟨rfl, rfl,
    (webhook_ack_policy "whsec" _ [] true 0 ⟨"rawbody", some "s"⟩ ledger0 "s"
      rfl).2.2.2.2.2 "charge.updated" rfl⟩,
   (webhook_ack_policy "whsec" _ [⟨"p100", 1200, 12⟩] false 0
      ⟨"rawbody", some "s"⟩ ledger0 "s" rfl).2.2.2.1
     ⟨"pi_9", ⟨some "u1", some "p100", some "1200"⟩⟩ ⟨"p100", 1200, 12⟩
     rfl (by decide) (by decide) (by decide) rfl⟩

/-- C1: the fulfillment path is *not* idempotent on the payment reference.
Concretely: a verified `payment_intent.succeeded` event for payment intent
`pay_abc` (metadata `userId = u1`, `packageId = p100`, `credits = "1200"`,
catalog credits 1200) is fulfilled by the webhook handler, and then the
client `confirmPayment` path references the same payment.  Both invocations
succeed, the ledger ends with *two* PURCHASE rows carrying
`paymentIntentId = pay_abc`, and the user's balance grows by the package
amount *twice* (2400) — neither path performs the idempotency lookup the
claim describes. -/
theorem fulfillment_not_idempotent :
    (let st1 := (webhookPOST (some "whsec_test")
        (fun _ _ _ => some (StripeEvent.paymentIntentSucceeded
          ⟨"pay_abc", ⟨some "u1", some "p100", some "1200"⟩⟩))
        [⟨"p100", 1200, 12⟩] true 1000
        ⟨"rawbody", some "t=1,v1=abc"⟩ ledger0)
     let st2 := (confirmPayment [⟨"p100", 1200, 12⟩]
        (fun pid => if pid == "pay_abc" then
          some ⟨"pay_abc", "succeeded", ⟨some "u1", some "p100", some "1200"⟩⟩
        else none)
        (some "u1") 2000 "p100" "pay_abc" st1.2)
     st1.1 = okResponse ∧
     st2.1 = Except.ok () ∧
     purchaseCount st2.2 "pay_abc" = 2 ∧
     getBalance st2.2 "u1" = 2400) :=
  ⟨rfl, rfl, rfl, rfl⟩

/-- A list is a prefix of itself, in `Bool` form. -/
theorem isPrefixOf_self (l : List Char) : l.isPrefixOf l = true := by
  induction l with
  | nil => rfl
  | cons a as ih => simp [List.isPrefixOf, ih]

/-- `listIncl` finds an occurrence placed at the end of the haystack. -/
theorem listIncl_append (needle pre : List Char) :
    listIncl needle (pre ++ needle) = true := by
  induction pre with
  | nil =>
    cases needle with
    | nil => rfl
    | cons c cs => simp [listIncl, isPrefixOf_self]
  | cons c cs ih => simp [listIncl, ih]

/-- C3 counterexample: the URL
`https://stripe.com.attacker.example/receipt/1` has host
`stripe.com.attacker.example`, which is not one of the trusted receipt hosts
(it is neither `stripe.com` / `stripe-images.com` nor a subdomain of them),
yet `sanitizeReceiptUrl` returns it unchanged instead of `null`, because the
source checks `hostname.includes('stripe.com')` — a substring test, not a
host allow-list. -/
theorem sanitizeReceiptUrl_substring_bypass :
    specTrustedReceiptHost "stripe.com.attacker.example" = false ∧
    urlHostname "https://stripe.com.attacker.example/receipt/1" =
      some "stripe.com.attacker.example" ∧
    sanitizeReceiptUrl (some "https://stripe.com.attacker.example/receipt/1") =
      some "https://stripe.com.attacker.example/receipt/1" := by
  refine ⟨by decide, by decide, by decide⟩

/-- C3 (amended): `sanitizeReceiptUrl` drops absent, empty and unparseable
URLs, and otherwise returns the URL unchanged exactly when the parsed
hostname *contains* `stripe.com` or `stripe-images.com` as a substring; in
particular every URL on a genuinely trusted host (those two hosts and their
subdomains) is kept, but the substring test also admits untrusted hosts
that merely embed those names. -/
theorem sanitizeReceiptUrl_amended :
    sanitizeReceiptUrl none = none ∧
    sanitizeReceiptUrl (some "") = none ∧
    (∀ u : String, u ≠ "" → urlHostname u = none →
      sanitizeReceiptUrl (some u) = none) ∧
    (∀ u h : String, u ≠ "" → urlHostname u = some h →
      sanitizeReceiptUrl (some u) =
        if jsIncludes h "stripe.com" || jsIncludes h "stripe-images.com" then
          some u
        else none) ∧
    (∀ u h : String, u ≠ "" → urlHostname u = some h →
      specTrustedReceiptHost h = true → sanitizeReceiptUrl (some u) = some u) := by
  have hchar : ∀ u h : String, u ≠ "" → urlHostname u = some h →
      sanitizeReceiptUrl (some u) =
        if jsIncludes h "stripe.com" || jsIncludes h "stripe-images.com" then
          some u
        else none := by
    intro u h hu hhost
    simp [sanitizeReceiptUrl, hu, hhost]
  refine ⟨rfl, rfl, ?_, hchar, ?_⟩
  · intro u hu hhost
    simp [sanitizeReceiptUrl, hu, hhost]
  · intro u h hu hhost htr
    rw [hchar u h hu hhost]
    have hsub : (jsIncludes h "stripe.com" || jsIncludes h "stripe-images.com") = true := by
      simp only [specTrustedReceiptHost, Bool.or_eq_true, beq_iff_eq,
        List.isSuffixOf_iff_suffix] at htr
      rcases htr with ((h1 | h2) | h3) | h4
      · subst h1; decide
      · subst h2; decide
      · rcases h3 with ⟨pre, hpre⟩
        have hx : ".stripe.com".toList = ['.'] ++ "stripe.com".toList := by decide
        have hlist : h.toList = (pre ++ ['.']) ++ "stripe.com".toList := by
          rw [← hpre, hx, List.append_assoc]
        have hinc : jsIncludes h "stripe.com" = true := by
          unfold jsIncludes
          rw [hlist]
          exact listIncl_append _ _
        simp [hinc]
      · rcases h4 with ⟨pre, hpre⟩
        have hx : ".stripe-images.com".toList = ['.'] ++ "stripe-images.com".toList := by
          decide
        have hlist : h.toList = (pre ++ ['.']) ++ "stripe-images.com".toList := by
          rw [← hpre, hx, List.append_assoc]
        have hinc : jsIncludes h "stripe-images.com" = true := by
          unfold jsIncludes
          rw [hlist]
          exact listIncl_append _ _
        simp [hinc]
    rw [hsub]
    rfl

/-- C3 witness: the amended characterization at concrete inputs — a
subdomain receipt URL `https://pay.stripe.com/receipts/r1` is kept, a
URL on `evil.example` is dropped. -/
theorem sanitizeReceiptUrl_amended_witness :
    (("https://pay.stripe.com/receipts/r1" : String) ≠ "" ∧
      urlHostname "https://pay.stripe.com/receipts/r1" = some "pay.stripe.com" ∧
      specTrustedReceiptHost "pay.stripe.com" = true ∧
      sanitizeReceiptUrl (some "https://pay.stripe.com/receipts/r1") =
        some "https://pay.stripe.com/receipts/r1") ∧
    (("https://evil.example/receipt" : String) ≠ "" ∧
      urlHostname "https://evil.example/receipt" = some "evil.example" ∧
      sanitizeReceiptUrl (some "https://evil.example/receipt") =
        if jsIncludes "evil.example" "stripe.com" ||
           jsIncludes "evil.example" "stripe-images.com" then
          some "https://evil.example/receipt"
        else none) :=
  ⟨⟨by decide, by decide, by decide,
    sanitizeReceiptUrl_amended.2.2.2.2 "https://pay.stripe.com/receipts/r1"
      "pay.stripe.com" (by decide) (by decide) (by decide)⟩,
   ⟨by decide, by decide,
    sanitizeReceiptUrl_amended.2.2.2.1 "https://evil.example/receipt"
      "evil.example" (by decide) (by decide)⟩⟩

/-- Splitting a list that does not contain the separator yields the list
itself as the only part. -/
theorem splitOnChar_not_mem (sep : Char) (l : List Char) (h : sep ∉ l) :
    splitOnChar sep l = [l] := by
  induction l with
  | nil => rfl
  | cons c rest ih =>
    have hc : ¬(c = sep) := fun hcs => h (hcs ▸ List.mem_cons_self c rest)
    have hrest : sep ∉ rest := fun hm => h (List.mem_cons_of_mem c hm)
    simp [splitOnChar, hc, ih hrest]

/-- Splitting around the first separator occurrence: with no separator in
the first part, it comes off whole. -/
theorem splitOnChar_append (sep : Char) (localPart domain : List Char)
    (h : sep ∉ localPart) :
    splitOnChar sep (localPart ++ sep :: domain) =
      localPart :: splitOnChar sep domain := by
  induction localPart with
  | nil => simp [splitOnChar]
  | cons c cs ih =>
    have hc : ¬(c = sep) := fun hcs => h (hcs ▸ List.mem_cons_self c cs)
    have hcs : sep ∉ cs := fun hm => h (List.mem_cons_of_mem c hm)
    rw [List.cons_append]
    simp only [splitOnChar, hc, if_false, ih hcs]

/-- C9: for every billing email of the form `local@domain` (one `@`, domain
non-empty), the masking step keeps the first 2 characters of the local
part, replaces every remaining character of the local part with `'*'`, and
leaves the domain intact. -/
theorem maskEmail_local_at_domain (localPart domain : List Char)
    (h1 : '@' ∉ localPart) (h2 : '@' ∉ domain) (h3 : domain ≠ []) :
    maskEmail (localPart ++ '@' :: domain) =
      localPart.take 2 ++ List.replicate (localPart.length - 2) '*' ++
        '@' :: domain := by
  unfold maskEmail
  rw [splitOnChar_append '@' localPart domain h1, splitOnChar_not_mem '@' domain h2]
  by_cases hl : localPart = []
  · subst hl
    simp
  · simp only [ne_eq, hl, not_false_iff, h3, and_self, if_true, true_and]
    by_cases hlen : localPart.length > 2
    · simp [hl, h3, hlen, List.append_assoc]
    · have htake : localPart.take 2 = localPart :=
        List.take_of_length_le (by omega)
      have hrep : localPart.length - 2 = 0 := by omega
      simp [hl, h3, hlen, htake, hrep]

/-- C9 witness: `jane.doe@example.com` masks to `ja******@example.com`. -/
theorem maskEmail_local_at_domain_witness :
    ('@' ∉ "jane.doe".toList ∧ '@' ∉ "example.com".toList ∧
      "example.com".toList ≠ [] ∧
      maskEmail ("jane.doe".toList ++ '@' :: "example.com".toList) =
        "jane.doe".toList.take 2 ++
          List.replicate ("jane.doe".toList.length - 2) '*' ++
          '@' :: "example.com".toList) ∧
    maskEmailStr "jane.doe@example.com" = "ja******@example.com" :=
  ⟨⟨by decide, by decide, by decide,
    maskEmail_local_at_domain "jane.doe".toList "example.com".toList
      (by decide) (by decide) (by decide)⟩,
   by decide⟩

/-- Reading back a freshly written rate-limit binding. -/
theorem rlGet_rlSet_self (store : RLStore) (uid : String) (v : List Nat) :
    rlGet (rlSet store uid v) uid = v := by
  induction store with
  | nil => simp [rlGet, rlSet]
  | cons p rest ih =>
    rcases p with ⟨k, w⟩
    by_cases hk : (k == uid) = true
    · simp [rlGet, rlSet, hk]
    · rw [rlSet, if_neg hk]
      unfold rlGet
      have hfind : List.find? (fun q => q.1 == uid) ((k, w) :: rlSet rest uid v) =
          List.find? (fun q => q.1 == uid) (rlSet rest uid v) :=
        List.find?_cons_of_neg _ (by simpa using hk)
      rw [hfind]
      unfold rlGet at ih
      exact ih

/-- C5: the receipt rate-limit gate as `getReceiptInfo` drives it.  (1) A
request is admitted exactly when fewer than `MAX_REQUESTS_PER_MINUTE = 10`
of the caller's recorded timestamps lie inside the sliding
`WINDOW_MS = 60000` ms window; (2) a rejected request is not recorded — the
caller's stored list is only pruned; (3) an admitted request appends its
timestamp to the pruned list; (4) once the window has elapsed past every
earlier request, the next request is admitted again; (5) a burst of 11
requests by one caller inside a single window admits exactly the first 10
and rejects the 11th; (6) over the rate budget, `getReceiptInfo` rejects
with the error produced by the "Too many receipt requests" throttle branch
(surfaced through `handleError` as the retry-later user message) and admits
no record of the rejected request. -/
theorem receipt_rate_limit_gate (now : Nat) (store : RLStore) (uid : String) :
    ((receiptRateGate now store uid).1 = true ↔
      (recentRequests now (rlGet store uid)).length < MAX_REQUESTS_PER_MINUTE) ∧
    ((receiptRateGate now store uid).1 = false →
      rlGet (receiptRateGate now store uid).2 uid =
        recentRequests now (rlGet store uid)) ∧
    ((receiptRateGate now store uid).1 = true →
      rlGet (receiptRateGate now store uid).2 uid =
        recentRequests now (rlGet store uid) ++ [now]) ∧
    ((∀ t ∈ rlGet store uid, WINDOW_MS ≤ now - t) →
      (receiptRateGate now store uid).1 = true) ∧
    ((runGate uid (List.replicate 11 now) []).1 =
      List.replicate 10 true ++ [false]) ∧
    (∀ (stripe : ReceiptStripeOracle) (devMode : Bool) (txns : List UserTxn)
        (pid : String),
      isValidPaymentIntentId pid = true →
      (canMakeRequest now store uid).1 = false →
      getReceiptInfo stripe devMode now (some uid) txns store pid =
        (Except.error "Unable to process receipt request. Please try again.",
         (canMakeRequest now store uid).2)) := by
  refine ⟨?_, ?_, ?_, ?_, ?_, ?_⟩
  · by_cases hlt :
      (recentRequests now (rlGet store uid)).length < MAX_REQUESTS_PER_MINUTE
    · simp [receiptRateGate, canMakeRequest, hlt]
    · simp [receiptRateGate, canMakeRequest, hlt]
  · intro hrej
    by_cases hlt :
      (recentRequests now (rlGet store uid)).length < MAX_REQUESTS_PER_MINUTE
    · simp [receiptRateGate, canMakeRequest, hlt] at hrej
    · simp [receiptRateGate, canMakeRequest, hlt, rlGet_rlSet_self]
  · intro hadm
    by_cases hlt :
      (recentRequests now (rlGet store uid)).length < MAX_REQUESTS_PER_MINUTE
    · simp [receiptRateGate, canMakeRequest, recordRequest, hlt, rlGet_rlSet_self]
    · simp [receiptRateGate, canMakeRequest, hlt] at hadm
  · intro hall
    have hempty : recentRequests now (rlGet store uid) = [] := by
      refine List.filter_eq_nil_iff.mpr ?_
      intro t ht
      have := hall t ht
      simp only [decide_eq_true_eq]
      omega
    have hlt : (recentRequests now (rlGet store uid)).length <
        MAX_REQUESTS_PER_MINUTE := by
      rw [hempty]; decide
    simp [receiptRateGate, canMakeRequest, hlt]
  · have hrec : ∀ i : Nat, recentRequests now (List.replicate i now) =
        List.replicate i now := by
      intro i
      unfold recentRequests
      refine List.filter_replicate_of_pos ?_
      simp only [Nat.sub_self, WINDOW_MS]
      decide
    have hsingle : ∀ l : List Nat,
        receiptRateGate now [(uid, l)] uid =
          if (recentRequests now l).length < MAX_REQUESTS_PER_MINUTE then
            (true, [(uid, recentRequests now l ++ [now])])
          else (false, [(uid, recentRequests now l)]) := by
      intro l
      by_cases h : (recentRequests now l).length < MAX_REQUESTS_PER_MINUTE <;>
        simp [receiptRateGate, canMakeRequest, recordRequest, rlGet, rlSet, h]
    have h0 : receiptRateGate now [] uid = (true, [(uid, List.replicate 1 now)]) := by
      simp [receiptRateGate, canMakeRequest, recordRequest, rlGet, rlSet,
        recentRequests, MAX_REQUESTS_PER_MINUTE, List.replicate]
    have hstep : ∀ i : Nat, i < 10 →
        receiptRateGate now [(uid, List.replicate i now)] uid =
          (true, [(uid, List.replicate (i + 1) now)]) := by
      intro i hi
      rw [hsingle (List.replicate i now), hrec i]
      simp [List.length_replicate, MAX_REQUESTS_PER_MINUTE, hi,
        List.replicate_succ' i now]
    have hfull : receiptRateGate now [(uid, List.replicate 10 now)] uid =
        (false, [(uid, List.replicate 10 now)]) := by
      rw [hsingle (List.replicate 10 now), hrec 10]
      simp [List.length_replicate, MAX_REQUESTS_PER_MINUTE]
    have hcons : ∀ (t : Nat) (ts : List Nat) (store : RLStore),
        (runGate uid (t :: ts) store).1 =
          (receiptRateGate t store uid).1 ::
            (runGate uid ts (receiptRateGate t store uid).2).1 :=
      fun _ _ _ => rfl
    rw [show List.replicate 11 now = now :: List.replicate 10 now from rfl,
      hcons, h0]
    rw [show List.replicate 10 now = now :: List.replicate 9 now from rfl,
      hcons, hstep 1 (by norm_num)]
    rw [show List.replicate 9 now = now :: List.replicate 8 now from rfl,
      hcons, hstep 2 (by norm_num)]
    rw [show List.replicate 8 now = now :: List.replicate 7 now from rfl,
      hcons, hstep 3 (by norm_num)]
    rw [show List.replicate 7 now = now :: List.replicate 6 now from rfl,
      hcons, hstep 4 (by norm_num)]
    rw [show List.replicate 6 now = now :: List.replicate 5 now from rfl,
      hcons, hstep 5 (by norm_num)]
    rw [show List.replicate 5 now = now :: List.replicate 4 now from rfl,
      hcons, hstep 6 (by norm_num)]
    rw [show List.replicate 4 now = now :: List.replicate 3 now from rfl,
      hcons, hstep 7 (by norm_num)]
    rw [show List.replicate 3 now = now :: List.replicate 2 now from rfl,
      hcons, hstep 8 (by norm_num)]
    rw [show List.replicate 2 now = now :: List.replicate 1 now from rfl,
      hcons, hstep 9 (by norm_num)]
    rw [show List.replicate 1 now = now :: List.replicate 0 now from rfl,
      hcons, hfull]
    rfl
  · intro stripe devMode txns pid hvalid hgate
    simp only [getReceiptInfo, hvalid, Bool.not_true, Bool.false_eq_true,
      if_false, hgate]
    rfl

/-- C5 witness: with 10 requests recorded inside the window
(timestamps 50000–59000, now = 100000) the 11th request is rejected and not
recorded, `getReceiptInfo` surfaces the throttle error, and at
now = 200000 — the window having elapsed — the caller is admitted again. -/
theorem receipt_rate_limit_gate_witness :
    ((receiptRateGate 100000
        [("u1", [50000, 51000, 52000, 53000, 54000, 55000, 56000, 57000, 58000,
          59000])] "u1").1 = false ∧
      rlGet (receiptRateGate 100000
        [("u1", [50000, 51000, 52000, 53000, 54000, 55000, 56000, 57000, 58000,
          59000])] "u1").2 "u1" =
        recentRequests 100000
          (rlGet [("u1", [50000, 51000, 52000, 53000, 54000, 55000, 56000, 57000,
            58000, 59000])] "u1")) ∧
    (isValidPaymentIntentId "pi_abc123" = true ∧
      (canMakeRequest 100000
        [("u1", [50000, 51000, 52000, 53000, 54000, 55000, 56000, 57000, 58000,
          59000])] "u1").1 = false ∧
      getReceiptInfo ⟨fun _ => Except.error ThrownError.otherValue, fun _ => none⟩
        false 100000 (some "u1") []
        [("u1", [50000, 51000, 52000, 53000, 54000, 55000, 56000, 57000, 58000,
          59000])] "pi_abc123" =
        (Except.error "Unable to process receipt request. Please try again.",
         (canMakeRequest 100000
           [("u1", [50000, 51000, 52000, 53000, 54000, 55000, 56000, 57000, 58000,
             59000])] "u1").2)) ∧
    ((∀ t ∈ rlGet [("u1", [50000, 51000, 52000, 53000, 54000, 55000, 56000, 57000,
        58000, 59000])] "u1", WINDOW_MS ≤ 200000 - t) ∧
      (receiptRateGate 200000
        [("u1", [50000, 51000, 52000, 53000, 54000, 55000, 56000, 57000, 58000,
          59000])] "u1").1 = true) :=
  ⟨⟨by decide,
    (receipt_rate_limit_gate 100000
      [("u1", [50000, 51000, 52000, 53000, 54000, 55000, 56000, 57000, 58000,
        59000])] "u1").2.1 (by decide)⟩,
   ⟨by decide, by decide,
    (receipt_rate_limit_gate 100000
      [("u1", [50000, 51000, 52000, 53000, 54000, 55000, 56000, 57000, 58000,
        59000])] "u1").2.2.2.2.2
      ⟨fun _ => Except.error ThrownError.otherValue, fun _ => none⟩ false []
      "pi_abc123" (by decide) (by decide)⟩,
   ⟨by decide,
    (receipt_rate_limit_gate 200000
      [("u1", [50000, 51000, 52000, 53000, 54000, 55000, 56000, 57000, 58000,
        59000])] "u1").2.2.2.1 (by decide)⟩⟩

/-- C4: ownership isolation of the owner receipt lookup.  Take two runs by
the same authenticated caller for the same (well-formed, un-throttled)
payment reference: one where the reference belongs to a transaction owned
by a different user (so it is absent from the caller's own listing) and one
where it matches no transaction at all.  The two runs return identical
results — the same error shape, here the authorization user message — and
neither run consults the payment gateway: the outcome is independent of the
Stripe oracle and of the development-mode flag. -/
theorem getReceiptInfo_ownership_isolation
    (stripe1 stripe2 : ReceiptStripeOracle) (devMode1 devMode2 : Bool)
    (now : Nat) (uid : String) (txns1 txns2 : List UserTxn) (rl : RLStore)
    (pid : String)
    (hvalid : isValidPaymentIntentId pid = true)
    (hgate : (canMakeRequest now rl uid).1 = true)
    (h1 : ∀ t ∈ getCreditTransactionsPage txns1 1 1000, t.paymentIntentId ≠ some pid)
    (h2 : ∀ t ∈ getCreditTransactionsPage txns2 1 1000, t.paymentIntentId ≠ some pid) :
    getReceiptInfo stripe1 devMode1 now (some uid) txns1 rl pid =
      getReceiptInfo stripe2 devMode2 now (some uid) txns2 rl pid ∧
    (getReceiptInfo stripe1 devMode1 now (some uid) txns1 rl pid).1 =
      Except.error "You do not have permission to view this receipt." := by
  have key : ∀ (stripe : ReceiptStripeOracle) (devMode : Bool) (txns : List UserTxn),
      (∀ t ∈ getCreditTransactionsPage txns 1 1000, t.paymentIntentId ≠ some pid) →
      getReceiptInfo stripe devMode now (some uid) txns rl pid =
        (Except.error "You do not have permission to view this receipt.",
         recordRequest now (canMakeRequest now rl uid).2 uid) := by
    intro stripe devMode txns habs
    have hfind : (getCreditTransactionsPage txns 1 1000).find?
        (fun t => t.paymentIntentId == some pid) = none := by
      refine List.find?_eq_none.mpr ?_
      intro t ht
      simpa using habs t ht
    simp only [getReceiptInfo, hvalid, Bool.not_true, Bool.false_eq_true,
      if_false, hgate, hfind]
    rfl
  rw [key stripe1 devMode1 txns1 h1, key stripe2 devMode2 txns2 h2]
  exact ⟨rfl, rfl⟩

/-- C4 witness: caller `u1` requests `pi_target1`; in one world their
listing holds only an unrelated transaction (the target is owned by
another user), in the other no transaction matches; the Stripe oracles
differ wildly, yet both runs return the same authorization-shaped error. -/
theorem getReceiptInfo_ownership_isolation_witness :
    (isValidPaymentIntentId "pi_target1" = true ∧
      (canMakeRequest 0 [] "u1").1 = true ∧
      (∀ t ∈ getCreditTransactionsPage [⟨some "pi_xyz1", "other purchase"⟩] 1 1000,
        t.paymentIntentId ≠ some "pi_target1") ∧
      (∀ t ∈ getCreditTransactionsPage ([] : List UserTxn) 1 1000,
        t.paymentIntentId ≠ some "pi_target1")) ∧
    getReceiptInfo
        ⟨fun _ => Except.ok ⟨"succeeded",
          [⟨none, none, none, none, none, none, none, none⟩], none, 100, "usd",
          none⟩, fun _ => none⟩
        false 0 (some "u1") [⟨some "pi_xyz1", "other purchase"⟩] [] "pi_target1" =
      getReceiptInfo
        ⟨fun _ => Except.error (ThrownError.stripeTyped "StripeAPIError" "down"),
         fun _ => none⟩
        true 0 (some "u1") [] [] "pi_target1" ∧
    (getReceiptInfo
        ⟨fun _ => Except.ok ⟨"succeeded",
          [⟨none, none, none, none, none, none, none, none⟩], none, 100, "usd",
          none⟩, fun _ => none⟩
        false 0 (some "u1") [⟨some "pi_xyz1", "other purchase"⟩] [] "pi_target1").1 =
      Except.error "You do not have permission to view this receipt." :=
  ⟨⟨by decide, by decide, by decide, by decide⟩,
   (getReceiptInfo_ownership_isolation
      ⟨fun _ => Except.ok ⟨"succeeded",
        [⟨none, none, none, none, none, none, none, none⟩], none, 100, "usd",
        none⟩, fun _ => none⟩
      ⟨fun _ => Except.error (ThrownError.stripeTyped "StripeAPIError" "down"),
       fun _ => none⟩
      false true 0 "u1" [⟨some "pi_xyz1", "other purchase"⟩] [] [] "pi_target1"
      (by decide) (by decide) (by decide) (by decide)).1,
   (getReceiptInfo_ownership_isolation
      ⟨fun _ => Except.ok ⟨"succeeded",
        [⟨none, none, none, none, none, none, none, none⟩], none, 100, "usd",
        none⟩, fun _ => none⟩
      ⟨fun _ => Except.error (ThrownError.stripeTyped "StripeAPIError" "down"),
       fun _ => none⟩
      false true 0 "u1" [⟨some "pi_xyz1", "other purchase"⟩] [] [] "pi_target1"
      (by decide) (by decide) (by decide) (by decide)).2⟩

/-- C10: the ownership check of `getReceiptInfo` searches only the first
page of 1000 of the caller's transactions.  For a well-formed, un-throttled
request: if the caller owns a matching transaction but it lies beyond the
first 1000 rows of their listing, the lookup fails with the
not-found/unauthorized error shape exactly as if the transaction did not
exist; and resolution proceeds (to a successful receipt, given a healthy
gateway) exactly when the payment reference appears within that first
page. -/
theorem getReceiptInfo_first_page_only
    (stripe : ReceiptStripeOracle) (devMode : Bool) (now : Nat) (uid : String)
    (txns : List UserTxn) (rl : RLStore) (pid : String)
    (hvalid : isValidPaymentIntentId pid = true)
    (hgate : (canMakeRequest now rl uid).1 = true) :
    ((∃ t ∈ txns, t.paymentIntentId = some pid) →
      (∀ t ∈ getCreditTransactionsPage txns 1 1000, t.paymentIntentId ≠ some pid) →
      (getReceiptInfo stripe devMode now (some uid) txns rl pid).1 =
        Except.error "You do not have permission to view this receipt.") ∧
    (∀ t pi c rest,
      (getCreditTransactionsPage txns 1 1000).find?
        (fun u => u.paymentIntentId == some pid) = some t →
      stripe.retrieveIntent pid = Except.ok pi →
      pi.status = "succeeded" →
      pi.charges = c :: rest →
      ∃ info, (getReceiptInfo stripe devMode now (some uid) txns rl pid).1 =
        Except.ok info) := by
  constructor
  · intro _ habs
    have hfind : (getCreditTransactionsPage txns 1 1000).find?
        (fun t => t.paymentIntentId == some pid) = none := by
      refine List.find?_eq_none.mpr ?_
      intro t ht
      simpa using habs t ht
    simp only [getReceiptInfo, hvalid, Bool.not_true, Bool.false_eq_true,
      if_false, hgate, hfind]
    rfl
  · intro t pi c rest hfound hok hst hch
    simp only [getReceiptInfo, hvalid, Bool.not_true, Bool.false_eq_true,
      if_false, hgate, hfound, hok, hst, hch]
    simp only [ne_eq, not_true_eq_false, if_false]
    exact ⟨_, rfl⟩

set_option maxRecDepth 8000 in
/-- C10 witness: a caller whose matching transaction sits at position 1001
of their listing (behind 1000 filler rows) gets the unauthorized/not-found
error; with the matching transaction on the first page the same request
succeeds. -/
theorem getReceiptInfo_first_page_only_witness :
    ((getReceiptInfo
        ⟨fun _ => Except.ok ⟨"succeeded",
          [⟨none, none, none, none, none, none, none, none⟩], none, 100, "usd",
          none⟩, fun _ => none⟩
        false 0 (some "u1")
        (List.replicate 1000 ⟨some "pi_filler1", "f"⟩ ++
          [⟨some "pi_target1", "mine"⟩])
        [] "pi_target1").1 =
      Except.error "You do not have permission to view this receipt.") ∧
    (∃ info, (getReceiptInfo
        ⟨fun _ => Except.ok ⟨"succeeded",
          [⟨none, none, none, none, none, none, none, none⟩], none, 100, "usd",
          none⟩, fun _ => none⟩
        false 0 (some "u1") [⟨some "pi_target1", "mine"⟩] [] "pi_target1").1 =
      Except.ok info) := by
  constructor
  · refine (getReceiptInfo_first_page_only
      ⟨fun _ => Except.ok ⟨"succeeded",
        [⟨none, none, none, none, none, none, none, none⟩], none, 100, "usd",
        none⟩, fun _ => none⟩
      false 0 "u1"
      (List.replicate 1000 ⟨some "pi_filler1", "f"⟩ ++
        [⟨some "pi_target1", "mine"⟩])
      [] "pi_target1" (by decide) (by decide)).1
      ⟨⟨some "pi_target1", "mine"⟩, ?_, rfl⟩ ?_
    · exact List.mem_append_right _ (List.mem_singleton.mpr rfl)
    · intro t ht
      have hpage : getCreditTransactionsPage
          (List.replicate 1000 (⟨some "pi_filler1", "f"⟩ : UserTxn) ++
            [⟨some "pi_target1", "mine"⟩]) 1 1000 =
          List.replicate 1000 (⟨some "pi_filler1", "f"⟩ : UserTxn) := by
        unfold getCreditTransactionsPage
        rw [show (1 - 1) * 1000 = 0 from rfl, List.drop_zero]
        exact List.take_left' (by simp)
      rw [hpage] at ht
      rw [List.eq_of_mem_replicate ht]
      decide
  · exact (getReceiptInfo_first_page_only
      ⟨fun _ => Except.ok ⟨"succeeded",
        [⟨none, none, none, none, none, none, none, none⟩], none, 100, "usd",
        none⟩, fun _ => none⟩
      false 0 "u1" [⟨some "pi_target1", "mine"⟩] [] "pi_target1"
      (by decide) (by decide)).2
      ⟨some "pi_target1", "mine"⟩
      ⟨"succeeded", [⟨none, none, none, none, none, none, none, none⟩], none,
        100, "usd", none⟩
      ⟨none, none, none, none, none, none, none, none⟩ [] rfl rfl rfl rfl

/-- C8: the receipt generator degrades instead of failing.  For a fulfilled
payment (intent retrieved, status `succeeded`, user and transaction rows
present), when the expanded charge is absent, when the charge carries no
payment-method reference, or when the separate payment-method fetch throws,
`createReceiptFromPayment` still succeeds and persists a receipt whose
payment-method fields fall back to safe defaults (`paymentMethod =
"Payment Card"`, absent `cardLast4` / `cardBrand`) rather than raising an
error. -/
theorem createReceiptFromPayment_degrades
    (w : GeneratorWorld) (sendEmail : Bool) (pid userId transactionId : String)
    (pi : GeneratorIntent) (user : UserRecord) (txn : TxnRecord)
    (hpi : w.retrieveIntent pid = some pi)
    (hst : pi.status = "succeeded")
    (huser : w.findUser userId = some user)
    (htxn : w.findTxn transactionId = some txn) :
    (pi.latest_charge = none →
      ∃ row, createReceiptFromPayment w sendEmail pid userId transactionId =
          Except.ok row ∧
        row.paymentMethod = "Payment Card" ∧ row.cardLast4 = none ∧
        row.cardBrand = none) ∧
    (∀ charge, pi.latest_charge = some charge → charge.payment_method = none →
      ∃ row, createReceiptFromPayment w sendEmail pid userId transactionId =
          Except.ok row ∧
        row.paymentMethod = "Payment Card" ∧ row.cardLast4 = none ∧
        row.cardBrand = none) ∧
    (∀ charge pmId, pi.latest_charge = some charge →
      charge.payment_method = some (Sum.inl pmId) → w.retrievePM pmId = none →
      ∃ row, createReceiptFromPayment w sendEmail pid userId transactionId =
          Except.ok row ∧
        row.paymentMethod = "Payment Card" ∧ row.cardLast4 = none ∧
        row.cardBrand = none) := by
  refine ⟨?_, ?_, ?_⟩
  · intro hch
    simp only [createReceiptFromPayment, hpi, hst, huser, htxn, hch, ne_eq,
      not_true_eq_false, if_false]
    exact ⟨_, rfl, rfl, rfl, rfl⟩
  · intro charge hch hpm
    simp only [createReceiptFromPayment, hpi, hst, huser, htxn, hch, hpm, ne_eq,
      not_true_eq_false, if_false]
    exact ⟨_, rfl, rfl, rfl, rfl⟩
  · intro charge pmId hch hpm hfetch
    simp only [createReceiptFromPayment, hpi, hst, huser, htxn, hch, hpm, hfetch,
      ne_eq, not_true_eq_false, if_false]
    exact ⟨_, rfl, rfl, rfl, rfl⟩

/-- C8 witness: a test-mode-like payment whose intent has no expanded
charge still produces a persisted receipt with the fallback payment-method
fields. -/
theorem createReceiptFromPayment_degrades_witness :
    ((⟨fun _ => some ⟨"pi_1", "succeeded", 2000, "usd", 0, none⟩,
        fun _ => none,
        fun _ => some ⟨some "Jane", some "Doe", some "jane@example.com"⟩,
        fun _ => some ⟨1200, "Purchased 1200 credits"⟩,
        "RCPT-1", "tok_1", true⟩ : GeneratorWorld).retrieveIntent "pi_1" =
      some ⟨"pi_1", "succeeded", 2000, "usd", 0, none⟩) ∧
    (∃ row, createReceiptFromPayment
        ⟨fun _ => some ⟨"pi_1", "succeeded", 2000, "usd", 0, none⟩,
         fun _ => none,
         fun _ => some ⟨some "Jane", some "Doe", some "jane@example.com"⟩,
         fun _ => some ⟨1200, "Purchased 1200 credits"⟩,
         "RCPT-1", "tok_1", true⟩ true "pi_1" "u1" "txn1" =
        Except.ok row ∧
      row.paymentMethod = "Payment Card" ∧ row.cardLast4 = none ∧
      row.cardBrand = none) :=
  ⟨rfl,
   (createReceiptFromPayment_degrades
      ⟨fun _ => some ⟨"pi_1", "succeeded", 2000, "usd", 0, none⟩,
       fun _ => none,
       fun _ => some ⟨some "Jane", some "Doe", some "jane@example.com"⟩,
       fun _ => some ⟨1200, "Purchased 1200 credits"⟩,
       "RCPT-1", "tok_1", true⟩ true "pi_1" "u1" "txn1"
      ⟨"pi_1", "succeeded", 2000, "usd", 0, none⟩
      ⟨some "Jane", some "Doe", some "jane@example.com"⟩
      ⟨1200, "Purchased 1200 credits"⟩ rfl rfl rfl rfl).1 rfl⟩
